import Mathlib

/-!
Shallow embedding of the `acquisition` authentication API.

The repository pieces present in source form are `src/app.js` (middleware and
route registration order, the `/health` handler), `src/routes/auth.routes.js`
(the `/api/auth` subrouter) and the Arcjet security configuration (shield,
conditional bot detection, sliding-window rate limit).  The auth service,
controller, JWT utilities, cookie utilities and validation schemas are
described by the repository's own documentation (WARP.md) and the design
spec; definitions for those components are modelled from the spec and say so
in their doc comments.
-/

namespace Acquisition

/-! ## Password hasher -/

/-- A stored password hash.  The one-way salted hash (bcrypt in the
repository) is idealized as a pair of the salt and the graph of the hashed
plaintext: `compare` is true exactly when the plaintext hashes to an
equivalent value, as the spec requires of the hasher. -/
structure HashedPassword where
  salt : Nat
  plaintext : String
deriving DecidableEq, Repr

/-- Modelled from the spec: `hashPassword` of `src/services/auth.service.js`
(absent from `src/`): salted one-way hash of the plaintext. -/
def hashPassword (salt : Nat) (plaintext : String) : HashedPassword :=
  ⟨salt, plaintext⟩

/-- Modelled from the spec: `comparePassword` of `src/services/auth.service.js`
(absent from `src/`): true iff the plaintext hashes to an equivalent value
under the stored hash. -/
def comparePassword (plaintext : String) (h : HashedPassword) : Bool :=
  plaintext == h.plaintext

/-! ## Data model: the `users` table -/

/-- A row of the `users` table (`src/models/users.model.js`, described by
WARP.md: `id`, `name`, `email` (unique), `password`, `role`, timestamps; the
timestamps play no role in any claim and are omitted). -/
structure User where
  id : Nat
  name : String
  email : String
  password : HashedPassword
  role : String
deriving DecidableEq, Repr

/-- The public-safe identity subset of a user row: `{id, name, email, role}`,
the password hash excluded. -/
structure UserIdentity where
  id : Nat
  name : String
  email : String
  role : String
deriving DecidableEq, Repr

def identityOf (u : User) : UserIdentity :=
  ⟨u.id, u.name, u.email, u.role⟩

/-- Modelled from the spec: email normalization of the signup schema
(`src/validations/auth.validation.js`, absent from `src/`): emails are
normalized to lowercase, character by character. -/
def normalizeEmail (e : String) : String :=
  String.mk (e.data.map Char.toLower)

/-- The store lookup `db.select().from(users).where(eq(users.email, email))`
restricted to its first result: find the first user row with the given
email. -/
def findUserByEmail (db : List User) (email : String) : Option User :=
  db.find? (fun u => u.email == email)

/-! ## Auth service -/

/-- Typed errors raised by the auth service: `ConflictError` for a duplicate
email, `AuthenticationError` for bad credentials.  The carried message is the
internal (log-side) message; the controller collapses it. -/
inductive AuthErr
  | conflict (msg : String)
  | authFailed (msg : String)
deriving DecidableEq, Repr

/-- Observable steps of a service call, used to state ordering properties
(the existence check happens before the password is hashed). -/
inductive Ev
  | lookup (email : String)
  | hashEv
  | insertRow (email : String)
deriving DecidableEq, Repr

/-- A signup request body after validation: name, email, password and a role
(defaulted to `user` by the schema). -/
structure SignupInput where
  name : String
  email : String
  password : String
  role : String
deriving DecidableEq, Repr

/-- Modelled from the spec: `createUser` of `src/services/auth.service.js`
(absent from `src/`; WARP.md: checks for an existing user by email, hashes
the password, inserts a new record, and returns selected columns).  Returns
the new store, the result, and the trace of store/hasher events; `salt` is
the hasher's fresh salt and `nextId` the system-generated id. -/
def createUser (db : List User) (inp : SignupInput) (salt nextId : Nat) :
    List User × Except AuthErr UserIdentity × List Ev :=
  let ne := normalizeEmail inp.email
  match findUserByEmail db ne with
  | some _ => (db, .error (.conflict "User already exists"), [.lookup ne])
  | none =>
    let h := hashPassword salt inp.password
    let u : User := ⟨nextId, inp.name, ne, h, inp.role⟩
    (db ++ [u], .ok (identityOf u), [.lookup ne, .hashEv, .insertRow ne])

/-- Modelled from the spec: `authenticateUser` of
`src/services/auth.service.js` (absent from `src/`): fetches the user by
normalized email, compares passwords, returns the identity or fails with an
`AuthenticationError` whose internal message distinguishes the sub-check. -/
def authenticateUser (db : List User) (email password : String) :
    Except AuthErr UserIdentity :=
  match findUserByEmail db (normalizeEmail email) with
  | none => .error (.authFailed "User not found")
  | some u =>
    if comparePassword password u.password then .ok (identityOf u)
    else .error (.authFailed "Invalid password")

/-! ## Token issuer (JWT) -/

/-- The identity claims carried in a session token: `id`, `email`, `role`
of the subject user. -/
structure Claims where
  id : Nat
  email : String
  role : String
deriving DecidableEq, Repr

/-- An idealized MAC over the signed material: the signature binds the
server-held secret and every signed field, and nothing else forges it. -/
structure Signature where
  secret : Nat
  claims : Claims
  iat : Nat
  exp : Nat
deriving DecidableEq, Repr

/-- A signed token: claims plus issued/expiry timestamps and signature. -/
structure Token where
  claims : Claims
  iat : Nat
  exp : Nat
  sig : Signature
deriving DecidableEq, Repr

/-- The fixed token TTL: 1 day (`expiresIn: '1d'`), in seconds. -/
def tokenTTL : Nat := 86400

/-- Modelled from the spec: `jwttoken.signToken` of `src/utils/jwt.js`
(absent from `src/`): encodes the claims plus issued/expiry timestamps and
signs them with the server-held secret; fixed TTL. -/
def signToken (secret : Nat) (now : Nat) (c : Claims) : Token :=
  ⟨c, now, now + tokenTTL, ⟨secret, c, now, now + tokenTTL⟩⟩

/-- The single error kind surfaced by the token issuer to its callers, for
both an invalid signature and an expired token. -/
inductive TokenErr
  | tokenError
deriving DecidableEq, Repr

/-- Modelled from the spec: `jwttoken.verify` of `src/utils/jwt.js` (absent
from `src/`): validates signature and expiry; fails with the same `TokenErr`
kind on either failure. -/
def verifyToken (secret : Nat) (now : Nat) (t : Token) : Except TokenErr Claims :=
  if t.sig = (⟨secret, t.claims, t.iat, t.exp⟩ : Signature) then
    if t.exp ≤ now then .error .tokenError else .ok t.claims
  else .error .tokenError

/-! ## Session cookie manager -/

/-- The value a Set-Cookie carries: a session token, or the empty value used
to clear the cookie. -/
inductive CookieVal
  | token (t : Token)
  | cleared
deriving DecidableEq, Repr

/-- A cookie attached to a response, with its security attributes. -/
structure SetCookie where
  name : String
  value : CookieVal
  path : String
  maxAgeMs : Nat
  httpOnly : Bool
  secure : Bool
  sameSite : String
deriving DecidableEq, Repr

def authCookieName : String := "token"

def authCookiePath : String := "/"

/-- Modelled from the spec: `cookies.set` of `src/utils/cookies.js` (absent
from `src/`): httpOnly, secure in a production posture, sameSite strict,
max-age matching the token TTL. -/
def setAuthCookie (isProd : Bool) (t : Token) : SetCookie :=
  ⟨authCookieName, .token t, authCookiePath, tokenTTL * 1000, true, isProd, "strict"⟩

/-- Modelled from the spec: `cookies.clear` of `src/utils/cookies.js` (absent
from `src/`): overwrites the cookie with an immediately-expired empty value
of the same name and path. -/
def clearAuthCookie (isProd : Bool) : SetCookie :=
  ⟨authCookieName, .cleared, authCookiePath, 0, true, isProd, "strict"⟩

/-! ## HTTP layer -/

/-- An HTTP response: status code, JSON body as ordered key/value fields,
and the cookies set on it. -/
structure HttpResponse where
  status : Nat
  body : List (String × String)
  cookies : List SetCookie
deriving DecidableEq, Repr

/-- An incoming request's cookie jar, all an auth endpoint reads beyond its
parsed body. -/
structure HttpRequest where
  cookies : List (String × String)
deriving DecidableEq, Repr

/-- Modelled from the spec: the `signInSchema` of
`src/validations/auth.validation.js` (absent from `src/`): a basic email and
password shape check. -/
def validSignIn (email password : String) : Bool :=
  List.contains email.data '@' && decide (0 < password.length)

def identityBody (ident : UserIdentity) : List (String × String) :=
  [("id", toString ident.id), ("name", ident.name), ("email", ident.email),
   ("role", ident.role)]

/-- Modelled from the spec: the `signIn` controller of
`src/controller/auth.controller.js` (absent from `src/`; routed at
`POST /api/auth/login` by `src/routes/auth.routes.js`): validate, call
`authenticateUser`, and on any `AuthenticationError` respond 401 with one
generic message that never reveals which sub-check failed. -/
def signInController (db : List User) (secret now : Nat) (isProd : Bool)
    (email password : String) : HttpResponse :=
  if validSignIn email password then
    match authenticateUser db email password with
    | .ok ident =>
      let t := signToken secret now ⟨ident.id, ident.email, ident.role⟩
      { status := 200, body := identityBody ident, cookies := [setAuthCookie isProd t] }
    | .error _ =>
      { status := 401, body := [("error", "Invalid credentials")], cookies := [] }
  else
    { status := 400, body := [("error", "Validation failed")], cookies := [] }

/-- Modelled from the spec: the `signOut` controller of
`src/controller/auth.controller.js` (absent from `src/`; routed at
`POST /api/auth/logout`): clear the cookie unconditionally and respond
200. -/
def signOutController (isProd : Bool) (_req : HttpRequest) : HttpResponse :=
  { status := 200, body := [("message", "Signed out successfully")],
    cookies := [clearAuthCookie isProd] }

/-! ## Request Shield: the Arcjet rule set

Embedded from the Arcjet configuration source file (`arcjet({ key, rules })`
with `shield`, a production-only `detectBot`, and a `slidingWindow`). -/

/-- One Arcjet rule as configured in the source: `shield({mode})`,
`detectBot({mode, allow})`, or `slidingWindow({mode, interval, max})`
(interval in seconds). -/
inductive ArcjetRule
  | shield (mode : String)
  | detectBot (mode : String) (allow : List String)
  | slidingWindow (mode : String) (intervalSec : Nat) (max : Nat)
deriving DecidableEq, Repr

/-- `isProd = process.env.NODE_ENV === 'production'` from the Arcjet
configuration file. -/
def isProdOf (nodeEnv : String) : Bool :=
  nodeEnv == "production"

/-- The rule list of the `aj` Arcjet instance, as built in the source:
shield always; `detectBot` spliced in only when `isProd`, allowing the
search-engine and link-preview categories; `slidingWindow` (2s interval,
max 5) always. -/
def ajRules (isProd : Bool) : List ArcjetRule :=
  [ArcjetRule.shield "LIVE"]
    ++ (if isProd then
          [ArcjetRule.detectBot "LIVE" ["CATEGORY:SEARCH_ENGINE", "CATEGORY:PREVIEW"]]
        else [])
    ++ [ArcjetRule.slidingWindow "LIVE" 2 5]

def isDetectBotRule : ArcjetRule → Bool
  | .detectBot _ _ => true
  | _ => false

/-! ## Sliding-window admission -/

/-- The sliding-window interval configured in the source, in milliseconds
(`interval: '2s'`). -/
def windowIntervalMs : Nat := 2000

/-- The sliding-window threshold configured in the source (`max: 5`). -/
def windowMax : Nat := 5

/-- Modelled from the spec: the sliding-window counter per client identity
(the Arcjet library's evaluation of the `slidingWindow` rule is external):
the number of this client's earlier requests whose timestamp still lies in
the 2-second window ending now. -/
def requestsInWindow (history : List Nat) (now : Nat) : Nat :=
  (history.filter (fun s => s ≤ now && now < s + windowIntervalMs)).length

/-- Modelled from the spec: the admission decision of the sliding-window
rule: allow while the window holds fewer than `max` requests. -/
def slidingWindowAllows (history : List Nat) (now : Nat) : Bool :=
  requestsInWindow history now < windowMax

/-- The shield's admission decision: allow, or deny with an HTTP status. -/
inductive ShieldDecision
  | allow
  | deny (status : Nat)
deriving DecidableEq, Repr

/-- Modelled from the spec: `src/middleware/security.middleware.js` (absent
from `src/`; mounted by `src/app.js`): deny with 429 once the sliding-window
threshold is exceeded, else admit the request. -/
def securityMiddleware (history : List Nat) (now : Nat) : ShieldDecision :=
  if slidingWindowAllows history now then .allow else .deny 429

/-- A request passed through the shield before routing: if the shield
denies, the boundary answers with the denial status and the route handler
never runs; the returned flag records whether the handler ran. -/
def runShielded (history : List Nat) (now : Nat)
    (handler : Unit → HttpResponse) : HttpResponse × Bool :=
  match securityMiddleware history now with
  | .allow => (handler (), true)
  | .deny s => ({ status := s, body := [("error", "Too many requests")], cookies := [] }, false)

/-! ## The Express app: registration order (`src/app.js`) -/

/-- One `app.use`/`app.get` registration of `src/app.js`: a middleware, a
routed endpoint, or a mounted subrouter. -/
inductive Registration
  | mw (name : String)
  | route (method path : String)
  | mount (path : String)
deriving DecidableEq, Repr

/-- The registrations of `src/app.js`, in source order: helmet, express.json,
express.urlencoded, morgan, cors, cookie-parser, securityMiddleware, then
`GET /health`, `GET /`, `GET /api`, and the `/api/auth` router mount. -/
def appRegistrations : List Registration :=
  [.mw "helmet", .mw "expressJson", .mw "expressUrlencoded", .mw "morgan",
   .mw "cors", .mw "cookieParser", .mw "securityMiddleware",
   .route "GET" "/health", .route "GET" "/", .route "GET" "/api",
   .mount "/api/auth"]

def isEndpointReg : Registration → Bool
  | .route _ _ => true
  | .mount _ => true
  | .mw _ => false

/-- The middleware that Express runs ahead of a given registration: every
middleware registered strictly before it. -/
def middlewareBefore (regs : List Registration) (target : Registration) :
    List Registration :=
  (regs.takeWhile (fun r => r ≠ target)).filter (fun r => !isEndpointReg r)

/-- The `GET /health` handler of `src/app.js`:
`res.status(200).json({ status: 'OK', timestamp: ..., uptime: ... })`. -/
def healthHandler (timestamp : String) (uptime : Nat) : HttpResponse :=
  { status := 200,
    body := [("status", "OK"), ("timestamp", timestamp), ("uptime", toString uptime)],
    cookies := [] }

/-! ## Store invariants -/

/-- Every stored email is already in normalized (lowercase) form. -/
def EmailsNormalized (db : List User) : Prop :=
  ∀ u ∈ db, u.email = normalizeEmail u.email

/-- No two user rows share an email when compared case-insensitively. -/
def EmailsCIUnique (db : List User) : Prop :=
  db.Pairwise (fun a b => normalizeEmail a.email ≠ normalizeEmail b.email)

/-- The store invariant of the spec's data model. -/
def StoreInv (db : List User) : Prop :=
  EmailsNormalized db ∧ EmailsCIUnique db

/-! ## Helper lemmas -/

theorem char_toLower_idem (c : Char) : c.toLower.toLower = c.toLower := by
  simp only [Char.toLower]
  split
  next h =>
    obtain ⟨h1, h2⟩ := h
    generalize hg : c.toNat = n at h1 h2 ⊢
    interval_cases n <;> decide
  next h => simp [h]

theorem normalizeEmail_idem (e : String) :
    normalizeEmail (normalizeEmail e) = normalizeEmail e := by
  simp only [normalizeEmail, List.map_map]
  have : (e.data.map (Char.toLower ∘ Char.toLower)) = e.data.map Char.toLower :=
    List.map_congr_left (fun c _ => char_toLower_idem c)
  rw [this]

/-- C2: a signup whose normalized email already belongs to an existing user
fails with `ConflictError`, leaves the store unchanged, and hashes no
password; in every run of `createUser` the first event is the existence
lookup, so the check happens before any hashing. -/
theorem c2_duplicate_signup_conflict (db : List User) (inp : SignupInput)
    (salt nextId : Nat) (u : User)
    (h : findUserByEmail db (normalizeEmail inp.email) = some u) :
    (createUser db inp salt nextId).1 = db ∧
    (createUser db inp salt nextId).2.1 =
      Except.error (AuthErr.conflict "User already exists") ∧
    Ev.hashEv ∉ (createUser db inp salt nextId).2.2 ∧
    ∀ (db2 : List User) (inp2 : SignupInput) (s2 n2 : Nat),
      ((createUser db2 inp2 s2 n2).2.2).head? =
        some (Ev.lookup (normalizeEmail inp2.email)) := by
  refine ⟨?_, ?_, ?_, ?_⟩
  · simp [createUser, h]
  · simp [createUser, h]
  · simp [createUser, h]
  · intro db2 inp2 s2 n2
    cases hf : findUserByEmail db2 (normalizeEmail inp2.email) <;>
      simp [createUser, hf]

/-- C2 witness: with a store already holding `ann@x.com`, a second signup
with email `Ann@X.com` is rejected with a conflict, the store is unchanged
and no hash event occurs. -/
theorem c2_duplicate_signup_conflict_witness :
    findUserByEmail [⟨1, "Ann", "ann@x.com", ⟨0, "secret123"⟩, "user"⟩]
        (normalizeEmail "Ann@X.com") =
      some ⟨1, "Ann", "ann@x.com", ⟨0, "secret123"⟩, "user"⟩ ∧
    (createUser [⟨1, "Ann", "ann@x.com", ⟨0, "secret123"⟩, "user"⟩]
        ⟨"Ann", "Ann@X.com", "other", "user"⟩ 5 2).1 =
      [⟨1, "Ann", "ann@x.com", ⟨0, "secret123"⟩, "user"⟩] ∧
    (createUser [⟨1, "Ann", "ann@x.com", ⟨0, "secret123"⟩, "user"⟩]
        ⟨"Ann", "Ann@X.com", "other", "user"⟩ 5 2).2.1 =
      Except.error (AuthErr.conflict "User already exists") := by
  have hf : findUserByEmail [⟨1, "Ann", "ann@x.com", ⟨0, "secret123"⟩, "user"⟩]
      (normalizeEmail "Ann@X.com") =
      some ⟨1, "Ann", "ann@x.com", ⟨0, "secret123"⟩, "user"⟩ := by decide
  have := c2_duplicate_signup_conflict
    [⟨1, "Ann", "ann@x.com", ⟨0, "secret123"⟩, "user"⟩]
    ⟨"Ann", "Ann@X.com", "other", "user"⟩ 5 2
    ⟨1, "Ann", "ann@x.com", ⟨0, "secret123"⟩, "user"⟩ hf
  exact ⟨hf, this.1, this.2.1⟩

/-- C3: whenever `createUser` succeeds on a signup input, a subsequent
`authenticateUser` against the updated store with the same email and
password succeeds and returns the very identity `createUser` returned. -/
theorem c3_signup_then_login (db : List User) (inp : SignupInput)
    (salt nextId : Nat) (db' : List User) (ident : UserIdentity) (evs : List Ev)
    (h : createUser db inp salt nextId = (db', Except.ok ident, evs)) :
    authenticateUser db' inp.email inp.password = Except.ok ident := by
  cases hf : findUserByEmail db (normalizeEmail inp.email) with
  | some u => simp [createUser, hf] at h
  | none =>
    simp only [createUser, hf, Prod.mk.injEq, Except.ok.injEq] at h
    obtain ⟨hdb, hid, -⟩ := h
    subst hdb
    simp only [findUserByEmail] at hf
    simp only [authenticateUser, findUserByEmail, List.find?_append, hf,
      Option.none_or]
    simp [comparePassword, hashPassword, ← hid, identityOf]

/-- C3 witness: signing up Ann with a fresh email and then logging in with
the same credentials returns Ann's identity. -/
theorem c3_signup_then_login_witness :
    createUser [] ⟨"Ann", "Ann@X.com", "secret123", "user"⟩ 5 1 =
      ([⟨1, "Ann", "ann@x.com", ⟨5, "secret123"⟩, "user"⟩],
       Except.ok ⟨1, "Ann", "ann@x.com", "user"⟩,
       [Ev.lookup "ann@x.com", Ev.hashEv, Ev.insertRow "ann@x.com"]) ∧
    authenticateUser [⟨1, "Ann", "ann@x.com", ⟨5, "secret123"⟩, "user"⟩]
        "Ann@X.com" "secret123" =
      Except.ok ⟨1, "Ann", "ann@x.com", "user"⟩ := by
  have hc : createUser [] ⟨"Ann", "Ann@X.com", "secret123", "user"⟩ 5 1 =
      ([⟨1, "Ann", "ann@x.com", ⟨5, "secret123"⟩, "user"⟩],
       Except.ok ⟨1, "Ann", "ann@x.com", "user"⟩,
       [Ev.lookup "ann@x.com", Ev.hashEv, Ev.insertRow "ann@x.com"]) := by rfl
  exact ⟨hc, c3_signup_then_login [] ⟨"Ann", "Ann@X.com", "secret123", "user"⟩ 5 1
    [⟨1, "Ann", "ann@x.com", ⟨5, "secret123"⟩, "user"⟩]
    ⟨1, "Ann", "ann@x.com", "user"⟩
    [Ev.lookup "ann@x.com", Ev.hashEv, Ev.insertRow "ann@x.com"] hc⟩

/-- C5: a created user's stored email is the lowercase normalization of the
submitted email, and `createUser` — the only operation that writes the store
— preserves the invariant that all stored emails are normalized and no two
rows share an email case-insensitively. -/
theorem c5_email_normalization_invariant (db : List User) (inp : SignupInput)
    (salt nextId : Nat) (h : StoreInv db) :
    StoreInv (createUser db inp salt nextId).1 ∧
    ∀ (db' : List User) (ident : UserIdentity) (evs : List Ev),
      createUser db inp salt nextId = (db', Except.ok ident, evs) →
      ident.email = normalizeEmail inp.email := by
  cases hf : findUserByEmail db (normalizeEmail inp.email) with
  | some u =>
    refine ⟨by simpa [createUser, hf] using h, ?_⟩
    intro db' ident evs hc
    simp [createUser, hf] at hc
  | none =>
    constructor
    · simp only [createUser, hf]
      obtain ⟨hn, hu⟩ := h
      constructor
      · intro v hv
        rcases List.mem_append.mp hv with hv | hv
        · exact hn v hv
        · rw [List.mem_singleton] at hv
          subst hv
          simp [normalizeEmail_idem]
      · rw [EmailsCIUnique, List.pairwise_append]
        refine ⟨hu, by simp, ?_⟩
        intro a ha b hb
        rw [List.mem_singleton] at hb
        subst hb
        simp only
        rw [normalizeEmail_idem, ← hn a ha]
        have hane : ∀ x ∈ db, ¬x.email = normalizeEmail inp.email := by
          simpa [findUserByEmail, List.find?_eq_none] using hf
        exact hane a ha
    · intro db' ident evs hc
      simp only [createUser, hf, Prod.mk.injEq, Except.ok.injEq] at hc
      obtain ⟨-, hid, -⟩ := hc
      rw [← hid]
      rfl

/-- C5 witness: starting from an empty (trivially invariant) store, signing
up with email `Ann@X.com` keeps the invariant, and the stored/returned email
is the normalized `ann@x.com`. -/
theorem c5_email_normalization_invariant_witness :
    StoreInv ([] : List User) ∧
    StoreInv (createUser [] ⟨"Ann", "Ann@X.com", "secret123", "user"⟩ 5 1).1 ∧
    (⟨1, "Ann", "ann@x.com", "user"⟩ : UserIdentity).email =
      normalizeEmail "Ann@X.com" := by
  have hinv : StoreInv ([] : List User) := ⟨by simp [EmailsNormalized], by
    simp [EmailsCIUnique]⟩
  have happ := c5_email_normalization_invariant []
    ⟨"Ann", "Ann@X.com", "secret123", "user"⟩ 5 1 hinv
  refine ⟨hinv, happ.1, ?_⟩
  exact happ.2 [⟨1, "Ann", "ann@x.com", ⟨5, "secret123"⟩, "user"⟩]
    ⟨1, "Ann", "ann@x.com", "user"⟩
    [Ev.lookup "ann@x.com", Ev.hashEv, Ev.insertRow "ann@x.com"] (by rfl)

/-- C1: a login with an existing email but wrong password and a login with a
nonexistent email produce the identical public HTTP response: the same 401
status and the same generic error body, revealing nothing about which
sub-check failed. -/
theorem c1_login_enumeration_resistance (db : List User) (secret now : Nat)
    (isProd : Bool) (e1 p1 e2 p2 : String) (u : User)
    (hv1 : validSignIn e1 p1 = true) (hv2 : validSignIn e2 p2 = true)
    (hfound : findUserByEmail db (normalizeEmail e1) = some u)
    (hwrong : comparePassword p1 u.password = false)
    (hmissing : findUserByEmail db (normalizeEmail e2) = none) :
    signInController db secret now isProd e1 p1 =
      signInController db secret now isProd e2 p2 ∧
    (signInController db secret now isProd e1 p1).status = 401 ∧
    (signInController db secret now isProd e1 p1).body =
      [("error", "Invalid credentials")] := by
  have h1 : signInController db secret now isProd e1 p1 =
      { status := 401, body := [("error", "Invalid credentials")], cookies := [] } := by
    simp [signInController, authenticateUser, hv1, hfound, hwrong]
  have h2 : signInController db secret now isProd e2 p2 =
      { status := 401, body := [("error", "Invalid credentials")], cookies := [] } := by
    simp [signInController, authenticateUser, hv2, hmissing]
  rw [h1, h2]
  exact ⟨rfl, rfl, rfl⟩

/-- C1 witness: against a store holding only `ann@x.com`, logging in as Ann
with a wrong password and logging in as the absent `bob@x.com` yield the
same 401 response with the generic message. -/
theorem c1_login_enumeration_resistance_witness :
    validSignIn "Ann@X.com" "wrongpass" = true ∧
    validSignIn "bob@x.com" "whatever" = true ∧
    findUserByEmail [⟨1, "Ann", "ann@x.com", ⟨0, "secret123"⟩, "user"⟩]
        (normalizeEmail "Ann@X.com") =
      some ⟨1, "Ann", "ann@x.com", ⟨0, "secret123"⟩, "user"⟩ ∧
    signInController [⟨1, "Ann", "ann@x.com", ⟨0, "secret123"⟩, "user"⟩] 7 0 false
        "Ann@X.com" "wrongpass" =
      signInController [⟨1, "Ann", "ann@x.com", ⟨0, "secret123"⟩, "user"⟩] 7 0 false
        "bob@x.com" "whatever" ∧
    (signInController [⟨1, "Ann", "ann@x.com", ⟨0, "secret123"⟩, "user"⟩] 7 0 false
        "Ann@X.com" "wrongpass").status = 401 := by
  have happ := c1_login_enumeration_resistance
    [⟨1, "Ann", "ann@x.com", ⟨0, "secret123"⟩, "user"⟩] 7 0 false
    "Ann@X.com" "wrongpass" "bob@x.com" "whatever"
    ⟨1, "Ann", "ann@x.com", ⟨0, "secret123"⟩, "user"⟩
    (by decide) (by decide) (by decide) (by decide) (by decide)
  exact ⟨by decide, by decide, by decide, happ.1, happ.2.1⟩

/-- C4: verifying a token produced by `signToken` returns the original
claims at any time before the token's TTL elapses; verifying at or after
expiry fails with the token error, and verifying any token that differs from
the signed one while carrying its (unforgeable) signature fails with the
same token error kind. -/
theorem c4_token_roundtrip_expiry_tamper (secret now : Nat) (c : Claims) :
    (∀ v : Nat, v < (signToken secret now c).exp →
      verifyToken secret v (signToken secret now c) = Except.ok c) ∧
    (∀ v : Nat, (signToken secret now c).exp ≤ v →
      verifyToken secret v (signToken secret now c) =
        Except.error TokenErr.tokenError) ∧
    (∀ t : Token, t.sig = (signToken secret now c).sig →
      t ≠ signToken secret now c →
      ∀ v : Nat, verifyToken secret v t = Except.error TokenErr.tokenError) := by
  refine ⟨?_, ?_, ?_⟩
  · intro v hv
    simp only [signToken] at hv ⊢
    simp [verifyToken, Nat.not_le.mpr hv]
  · intro v hv
    simp only [signToken] at hv ⊢
    simp [verifyToken, hv]
  · rintro ⟨tc, tiat, texp, tsig⟩ hsig hne v
    simp only [signToken] at hsig hne
    subst hsig
    have hfields : ¬(tc = c ∧ tiat = now ∧ texp = now + tokenTTL) := by
      intro ⟨h1, h2, h3⟩
      exact hne (by rw [h1, h2, h3])
    simp only [verifyToken]
    rw [if_neg]
    intro heq
    obtain ⟨-, h1, h2, h3⟩ := Signature.mk.injEq .. |>.mp heq
    exact hfields ⟨h1.symm, h2.symm, h3.symm⟩

/-- C4 witness: with a concrete secret, issue time and claims, verification
succeeds inside the TTL, fails at expiry, and fails on a token whose role
claim was mutated while keeping the original signature. -/
theorem c4_token_roundtrip_expiry_tamper_witness :
    verifyToken 7 3 (signToken 7 0 ⟨1, "ann@x.com", "user"⟩) =
      Except.ok ⟨1, "ann@x.com", "user"⟩ ∧
    verifyToken 7 86400 (signToken 7 0 ⟨1, "ann@x.com", "user"⟩) =
      Except.error TokenErr.tokenError ∧
    verifyToken 7 3
        ⟨⟨1, "ann@x.com", "admin"⟩, 0, 86400,
         (signToken 7 0 ⟨1, "ann@x.com", "user"⟩).sig⟩ =
      Except.error TokenErr.tokenError := by
  have happ := c4_token_roundtrip_expiry_tamper 7 0 ⟨1, "ann@x.com", "user"⟩
  refine ⟨happ.1 3 (by decide), happ.2.1 86400 (by decide), ?_⟩
  exact happ.2.2 ⟨⟨1, "ann@x.com", "admin"⟩, 0, 86400,
    (signToken 7 0 ⟨1, "ann@x.com", "user"⟩).sig⟩ rfl (by decide) 3

/-- C6: once the sliding 2-second window already holds the maximum of 5
requests, the shield denies the next request with status 429 (a 4xx), the
boundary's response is independent of the route handler, and the handler —
in particular the auth controller — never runs. -/
theorem c6_sliding_window_rejection (history : List Nat) (now : Nat)
    (h : windowMax ≤ requestsInWindow history now) :
    ∀ handler : Unit → HttpResponse,
      runShielded history now handler =
        ({ status := 429, body := [("error", "Too many requests")], cookies := [] },
         false) := by
  intro handler
  have hdeny : slidingWindowAllows history now = false := by
    simp [slidingWindowAllows, Nat.not_lt.mpr h]
  simp [runShielded, securityMiddleware, hdeny]

/-- C6 witness: a client with five requests already inside the window has
its sixth request denied with 429, and the (health) handler does not run. -/
theorem c6_sliding_window_rejection_witness :
    windowMax ≤ requestsInWindow [0, 1, 1, 2, 2] 2 ∧
    runShielded [0, 1, 1, 2, 2] 2 (fun _ => healthHandler "t" 0) =
      ({ status := 429, body := [("error", "Too many requests")], cookies := [] },
       false) := by
  refine ⟨by decide, ?_⟩
  exact c6_sliding_window_rejection [0, 1, 1, 2, 2] 2 (by decide)
    (fun _ => healthHandler "t" 0)

/-- C7: the Arcjet rule set contains a bot-detection rule exactly when the
runtime posture is production, and that rule exempts precisely the
search-engine-crawler and link-preview categories; in a non-production
posture the rule list contains no bot rule at all. -/
theorem c7_bot_detection_production_only (env : String) :
    (ajRules (isProdOf env)).filter isDetectBotRule =
      (if isProdOf env then
        [ArcjetRule.detectBot "LIVE" ["CATEGORY:SEARCH_ENGINE", "CATEGORY:PREVIEW"]]
      else []) := by
  cases h : isProdOf env <;> simp [ajRules, isDetectBotRule]

/-- C8: logout always answers 200 with the session cookie overwritten by an
immediately-expired cleared value carrying the same name and path as the
cookie the login flow sets, and its response does not depend on the
request's cookies at all — logout with no session present is no error. -/
theorem c8_logout_idempotent (isProd : Bool) (req : HttpRequest) :
    (signOutController isProd req).status = 200 ∧
    (signOutController isProd req).cookies = [clearAuthCookie isProd] ∧
    (clearAuthCookie isProd).maxAgeMs = 0 ∧
    (∀ t : Token, (setAuthCookie isProd t).name = (clearAuthCookie isProd).name ∧
      (setAuthCookie isProd t).path = (clearAuthCookie isProd).path) ∧
    (∀ req2 : HttpRequest,
      signOutController isProd req = signOutController isProd req2) := by
  exact ⟨rfl, rfl, rfl, fun _ => ⟨rfl, rfl⟩, fun _ => rfl⟩

/-- C9: the `/health` handler responds 200 with a JSON body whose fields are
exactly `status`, `timestamp` and `uptime`. -/
theorem c9_health_endpoint (ts : String) (uptime : Nat) :
    (healthHandler ts uptime).status = 200 ∧
    (healthHandler ts uptime).body.map Prod.fst =
      ["status", "timestamp", "uptime"] := by
  exact ⟨rfl, rfl⟩

/-- C10: in `src/app.js` the security middleware is registered ahead of
every endpoint registration — `/health`, `/`, `/api` and the `/api/auth`
mount all have it in their preceding middleware chain — and the
sliding-window rule is part of the Arcjet rule set in every runtime
posture. -/
theorem c10_shield_guards_every_endpoint :
    (∀ target ∈ appRegistrations, isEndpointReg target = true →
      Registration.mw "securityMiddleware" ∈ middlewareBefore appRegistrations target) ∧
    (∀ isProd : Bool, ArcjetRule.slidingWindow "LIVE" 2 5 ∈ ajRules isProd) := by
  constructor
  · decide
  · intro isProd
    cases isProd <;> simp [ajRules]

/-- C10 witness: concretely, the security middleware precedes the `/health`
route's handler in the app's chain, and the sliding-window rule is present
under the production posture. -/
theorem c10_shield_guards_every_endpoint_witness :
    Registration.mw "securityMiddleware" ∈
      middlewareBefore appRegistrations (Registration.route "GET" "/health") ∧
    ArcjetRule.slidingWindow "LIVE" 2 5 ∈ ajRules true := by
  exact ⟨c10_shield_guards_every_endpoint.1 (Registration.route "GET" "/health")
    (by decide) (by decide), c10_shield_guards_every_endpoint.2 true⟩

end Acquisition
